import Mathlib

/-!
Verification of the `learning` repository's optimization module
(`learning/optimize.py`) and gradient checker
(`pynn/testing/tests/test_transfer.py`), as a shallow embedding in Lean 4.

Python values handled by `Problem` accessors are modelled by `PyVal`
(Python `None`, opaque non-sequence objects, and sequences).  An accessor
returns `Option PyVal`: `Option.none` models a raised exception
(e.g. `IndexError`), `some v` a normal return of the Python value `v`.
Numeric code (optimizers, Wolfe conditions, gradient checking) is modelled
over `ℚ`, with numpy 1-d arrays as `List ℚ`.
-/

namespace Learning

/-- A Python value as seen by `Problem` accessors: `none` is Python `None`,
`atom n` an opaque non-sequence object, `seq l` a tuple/list. -/
inductive PyVal : Type where
  | none : PyVal
  | atom : Nat → PyVal
  | seq : List PyVal → PyVal

/-- Embeds `_call_return_index`: call `func` and index its result
(`func(*args)[index]`); out-of-range indexing raises. -/
def call_return_index {X : Type} (func : X → List PyVal) (index : Nat) (x : X) :
    Option PyVal :=
  (func x).get? index

/-- Embeds `_call_return_indices`: call `func` once and return the list
`[values[i] for i in indices]`; any out-of-range index raises. -/
def call_return_indices {X : Type} (func : X → List PyVal) (indices : List Nat)
    (x : X) : Option PyVal :=
  let values := func x
  (indices.mapM fun i => values.get? i).map PyVal.seq

/-- Embeds `_bundle`: the list of results of each function, in order; an
exception in any sub-call propagates. -/
def bundle {X : Type} (functions : List (X → Option PyVal)) (x : X) :
    Option (List PyVal) :=
  functions.mapM fun f => f x

/-- Python `operator.add` restricted to sequences (concatenation); adding a
non-sequence in this context raises `TypeError`. -/
def pyAdd : PyVal → PyVal → Option PyVal
  | PyVal.seq a, PyVal.seq b => some (PyVal.seq (a ++ b))
  | _, _ => Option.none

/-- Left fold of `pyAdd`, embedding `reduce(operator.add, values)` on a
non-empty list (an empty list would raise). -/
def reduce_add : PyVal → List PyVal → Option PyVal
  | acc, [] => some acc
  | acc, b :: rest => do
    let s ← pyAdd acc b
    reduce_add s rest

/-- Embeds `_bundle_add`: results of `functions` concatenated together. -/
def bundle_add {X : Type} (functions : List (X → Option PyVal)) (x : X) :
    Option PyVal := do
  let values ← bundle functions x
  match values with
  | [] => Option.none
  | h :: rest => reduce_add h rest

/-- Embeds `_tuple_result`: wrap the result of `func` in a one-element
tuple. -/
def tuple_result {X : Type} (func : X → Option PyVal) (x : X) : Option PyVal :=
  (func x).map fun v => PyVal.seq [v]

/-- Embeds `_bundle_add_split`: return the tuple
`f_1(x)[0], f_2(x), f_1(x)[1]` (indexing may raise). -/
def bundle_add_split {X : Type} (f_1 : X → List PyVal) (f_2 : X → Option PyVal)
    (x : X) : Option PyVal := do
  let f_1_values := f_1 x
  let a ← f_1_values.get? 0
  let b ← f_2 x
  let c ← f_1_values.get? 1
  pure (PyVal.seq [a, b, c])

/-- Embeds `_return_none`: always return Python `None` (no exception). -/
def return_none {X : Type} : X → Option PyVal :=
  fun _ => some PyVal.none

/-- The seven resolved accessors of a `Problem` instance. -/
structure Problem (X : Type) where
  get_obj : X → Option PyVal
  get_jac : X → Option PyVal
  get_hess : X → Option PyVal
  get_obj_jac : X → Option PyVal
  get_obj_hess : X → Option PyVal
  get_jac_hess : X → Option PyVal
  get_obj_jac_hess : X → Option PyVal

/-- Embeds `Problem.__init__`: resolve the seven accessors from the seven
optional input functions, following the source's priority chains exactly.
Single-value input functions (`obj_func`, `jac_func`, `hess_func`) return one
Python value; combined input functions return a sequence of values. -/
def Problem.make {X : Type}
    (obj_func : Option (X → PyVal)) (jac_func : Option (X → PyVal))
    (hess_func : Option (X → PyVal))
    (obj_jac_func : Option (X → List PyVal))
    (obj_hess_func : Option (X → List PyVal))
    (jac_hess_func : Option (X → List PyVal))
    (obj_jac_hess_func : Option (X → List PyVal)) : Problem X :=
  -- Get objective function
  let get_obj : X → Option PyVal :=
    match obj_func with
    | some f => fun x => some (f x)
    | Option.none =>
      match obj_jac_func with
      | some f => call_return_index f 0
      | Option.none =>
        match obj_hess_func with
        | some f => call_return_index f 0
        | Option.none =>
          match obj_jac_hess_func with
          | some f => call_return_index f 0
          | Option.none => return_none
  -- Get jacobian function
  let get_jac : X → Option PyVal :=
    match jac_func with
    | some f => fun x => some (f x)
    | Option.none =>
      match obj_jac_func with
      | some f => call_return_index f 1
      | Option.none =>
        match jac_hess_func with
        | some f => call_return_index f 0
        | Option.none =>
          match obj_jac_hess_func with
          | some f => call_return_index f 1
          | Option.none => return_none
  -- Get hessian function
  let get_hess : X → Option PyVal :=
    match hess_func with
    | some f => fun x => some (f x)
    | Option.none =>
      match obj_hess_func with
      | some f => call_return_index f 1
      | Option.none =>
        match jac_hess_func with
        | some f => call_return_index f 1
        | Option.none =>
          match obj_jac_hess_func with
          | some f => call_return_index f 2
          | Option.none => return_none
  -- Get objective and jacobian function
  let get_obj_jac : X → Option PyVal :=
    match obj_jac_func with
    | some f => fun x => some (PyVal.seq (f x))
    | Option.none =>
      match obj_jac_hess_func with
      | some f => call_return_indices f [0, 1]
      | Option.none => fun x => (bundle [get_obj, get_jac] x).map PyVal.seq
  -- Get objective and hessian function
  let get_obj_hess : X → Option PyVal :=
    match obj_hess_func with
    | some f => fun x => some (PyVal.seq (f x))
    | Option.none =>
      match obj_jac_hess_func with
      | some f => call_return_indices f [0, 2]
      | Option.none => fun x => (bundle [get_obj, get_hess] x).map PyVal.seq
  -- Get jacobian and hessian function
  let get_jac_hess : X → Option PyVal :=
    match jac_hess_func with
    | some f => fun x => some (PyVal.seq (f x))
    | Option.none =>
      match obj_jac_hess_func with
      | some f => call_return_indices f [1, 2]
      | Option.none => fun x => (bundle [get_jac, get_hess] x).map PyVal.seq
  -- Get objective, jacobian, hessian function
  let get_obj_jac_hess : X → Option PyVal :=
    match obj_jac_hess_func with
    | some f => fun x => some (PyVal.seq (f x))
    | Option.none =>
      match obj_jac_func with
      | some f =>
        bundle_add [fun x => some (PyVal.seq (f x)), tuple_result get_hess]
      | Option.none =>
        match obj_hess_func with
        | some f => bundle_add_split f get_jac
        | Option.none =>
          match jac_hess_func with
          | some f =>
            bundle_add [tuple_result get_obj, fun x => some (PyVal.seq (f x))]
          | Option.none =>
            fun x => (bundle [get_obj, get_jac, get_hess] x).map PyVal.seq
  { get_obj := get_obj, get_jac := get_jac, get_hess := get_hess,
    get_obj_jac := get_obj_jac, get_obj_hess := get_obj_hess,
    get_jac_hess := get_jac_hess, get_obj_jac_hess := get_obj_jac_hess }

/-! ### Numeric embedding: numpy 1-d arrays over `ℚ` -/

/-- A numpy 1-d array. -/
abbrev Vec : Type := List ℚ

/-- Elementwise numpy addition of equal-length arrays. -/
def vadd (a b : Vec) : Vec := List.zipWith (· + ·) a b

/-- Elementwise numpy subtraction of equal-length arrays. -/
def vsub (a b : Vec) : Vec := List.zipWith (· - ·) a b

/-- numpy scalar-times-array broadcast. -/
def smul (c : ℚ) (v : Vec) : Vec := v.map (fun t => c * t)

/-- numpy `a.dot(b)` for 1-d arrays. -/
def dot (a b : Vec) : ℚ := (List.zipWith (· * ·) a b).sum

/-! ### Optimizers -/

/-- Embeds `SteepestDescent.__init__`: the only state is the step size. -/
structure SteepestDescent where
  step_size : ℚ

/-- Embeds `SteepestDescent.reset`: the body is `pass`, so the state is
unchanged. -/
def SteepestDescent.reset (o : SteepestDescent) : SteepestDescent := o

/-- Embeds `SteepestDescent.next`.  The problem is represented by its
`get_obj_jac` accessor, here a numeric function returning the pair
`(objective value, jacobian)`. -/
def SteepestDescent.next (o : SteepestDescent) (get_obj_jac : Vec → ℚ × Vec)
    (parameters : Vec) : ℚ × Vec :=
  let r := get_obj_jac parameters
  -- Take a step down the first derivative direction
  (r.1, vsub parameters (smul o.step_size r.2))

/-- Embeds the state of `SteepestDescentMomentum`. -/
structure SteepestDescentMomentum where
  step_size : ℚ
  momentum_rate : ℚ
  prev_jacobian : Option Vec

/-- Embeds `SteepestDescentMomentum.__init__`: stores the rates and sets
`prev_jacobian` to `None`. -/
def SteepestDescentMomentum.make (step_size momentum_rate : ℚ) :
    SteepestDescentMomentum :=
  { step_size := step_size, momentum_rate := momentum_rate,
    prev_jacobian := Option.none }

/-- Embeds `SteepestDescentMomentum.reset`: sets `prev_jacobian` to
`None`. -/
def SteepestDescentMomentum.reset (o : SteepestDescentMomentum) :
    SteepestDescentMomentum :=
  { o with prev_jacobian := Option.none }

/-- Embeds `SteepestDescentMomentum.next`: returns the `(objective value,
next parameters)` pair together with the optimizer state after the call.
The source's `next` reads `self._prev_jacobian` but never assigns any
attribute of `self`, so the returned state is the input state. -/
def SteepestDescentMomentum.next (o : SteepestDescentMomentum)
    (get_obj_jac : Vec → ℚ × Vec) (parameters : Vec) :
    (ℚ × Vec) × SteepestDescentMomentum :=
  let r := get_obj_jac parameters
  let next_parameters := vsub parameters (smul o.step_size r.2)
  let next_parameters :=
    match o.prev_jacobian with
    | some pj =>
        vsub next_parameters (smul (o.step_size * o.momentum_rate) pj)
    | Option.none => next_parameters
  ((r.1, next_parameters), o)

/-- States of a `SteepestDescentMomentum` object reachable through its public
interface: fresh construction, `reset`, and `next`. -/
inductive SDMReachable : SteepestDescentMomentum → Prop where
  | make (step_size momentum_rate : ℚ) :
      SDMReachable (SteepestDescentMomentum.make step_size momentum_rate)
  | reset {s : SteepestDescentMomentum} : SDMReachable s → SDMReachable s.reset
  | next {s : SteepestDescentMomentum} (get_obj_jac : Vec → ℚ × Vec)
      (parameters : Vec) :
      SDMReachable s → SDMReachable (s.next get_obj_jac parameters).2

/-! ### Wolfe conditions

`_wolfe_conditions` is embedded generically in a monad so that the raised
`ValueError` and the number of `obj_jac_func` evaluations are both
observable: instantiating the monad with `Except String` gives the plain
result, and with `ExceptT String (StateM ℕ)` (counting each call of
`obj_jac_func`) the evaluation count. -/

/-- Embeds `_armijo_rule`:
`obj_xk_plus_ap <= obj_xk + ((c_1*step_size)*jac_xk.T).dot(step_dir)`. -/
def armijo_rule (step_size obj_xk : ℚ) (jac_xk step_dir : Vec)
    (obj_xk_plus_ap : ℚ) (c_1 : ℚ) : Bool :=
  decide (obj_xk_plus_ap ≤ obj_xk + dot (smul (c_1 * step_size) jac_xk) step_dir)

/-- Embeds `_curvature_condition`:
`(jac_xk_plus_ap.T).dot(step_dir) >= (c_2*jac_xk.T).dot(step_dir)`. -/
def curvature_condition (jac_xk step_dir jac_xk_plus_ap : Vec) (c_2 : ℚ) :
    Bool :=
  decide (dot jac_xk_plus_ap step_dir ≥ dot (smul c_2 jac_xk) step_dir)

/-- Embeds `_wolfe_conditions` over any monad with exceptions; the supplied
`obj_jac_func` is a monadic action so its evaluations are observable. -/
def wolfe_conditions {m : Type → Type} [Monad m] [MonadExcept String m]
    (obj_jac_func : Vec → m (ℚ × Vec)) (step_size : ℚ) (parameters : Vec)
    (obj_xk : ℚ) (jac_xk step_dir : Vec) (c_1 c_2 : ℚ) : m Bool := do
  if ¬ (0 < c_1 ∧ c_1 < c_2 ∧ c_2 < 1) then
    throw "0 < c_1 < c_2 < 1"
  else
    -- NOTE: we add step_dir, not subtract; ex. -jacobian is a step direction
    let r ← obj_jac_func (vadd parameters (smul step_size step_dir))
    pure (armijo_rule step_size obj_xk jac_xk step_dir r.1 c_1 &&
          curvature_condition jac_xk step_dir r.2 c_2)

/-- Wraps a pure `obj_jac_func` so that each evaluation increments a
counter. -/
def countingObjJac (get_obj_jac : Vec → ℚ × Vec) (x : Vec) :
    ExceptT String (StateM ℕ) (ℚ × Vec) := do
  modify (· + 1)
  pure (get_obj_jac x)

/-! ### Gradient checker (`pynn/testing/tests/test_transfer.py`) -/

/-- Embeds `_approximate_ith`: copy `x`, nudge coordinate `i` by `±epsilon`,
and take component `i` of `(f(x_plus_i) - f(x_minus_i)) / (2*epsilon)`. -/
def approximate_ith (i : ℕ) (f : Vec → Vec) (x : Vec) (epsilon : ℚ) : ℚ :=
  let x_plus_i := x.set i (x.getD i 0 + epsilon)
  let x_minus_i := x.set i (x.getD i 0 - epsilon)
  ((vsub (f x_plus_i) (f x_minus_i)).map (fun t => t / (2 * epsilon))).getD i 0

/-- Embeds `_approximate_gradient`: one approximated partial derivative per
coordinate of `x`. -/
def approximate_gradient (f : Vec → Vec) (x : Vec) (epsilon : ℚ) : Vec :=
  (List.range x.length).map fun i => approximate_ith i f x epsilon

/-- numpy `mean` of a 1-d array. -/
def npMean (l : List ℚ) : ℚ := l.sum / l.length

/-- Embeds the assertion of `check_gradient` (with `inputs` supplied):
`true` iff the mean absolute difference between `df(inputs)` and the
approximated gradient is at most `epsilon`. -/
def check_gradient (f df : Vec → Vec) (inputs : Vec) (epsilon : ℚ) : Bool :=
  decide (npMean ((vsub (df inputs) (approximate_gradient f inputs epsilon)).map
    (fun t => |t|)) ≤ epsilon)

/-- The default tolerance `epsilon=1e-6` of `check_gradient`. -/
def default_epsilon : ℚ := 1 / 1000000

/-- Embeds the `inputs is None` path of `check_gradient`: the drawn random
vector (of length `random.randint(2, 10)`) is passed explicitly, and the
default tolerance is used. -/
def check_gradient_default (f df : Vec → Vec) (drawn : Vec) : Bool :=
  check_gradient f df drawn default_epsilon

/-- The standard basis vector `e_i` of dimension `n`. -/
def basis (n i : ℕ) : Vec :=
  (List.range n).map fun j => if j = i then 1 else 0

/-- Follows the spec's wording of the central-difference approximation, for
comparison with `approximate_ith`: component `i` of
`(f(x + epsilon*e_i) - f(x - epsilon*e_i)) / (2*epsilon)`. -/
def specApproximateIth (f : Vec → Vec) (x : Vec) (epsilon : ℚ) (i : ℕ) : ℚ :=
  ((vsub (f (vadd x (smul epsilon (basis x.length i))))
      (f (vsub x (smul epsilon (basis x.length i))))).map
    (fun t => t / (2 * epsilon))).getD i 0

/-! ### Theorems -/

/-- Adding `epsilon` times the `i`-th basis vector is the same as setting
coordinate `i` to `x[i] + epsilon`. -/
theorem vadd_smul_basis (x : Vec) (epsilon : ℚ) (i : ℕ) (hi : i < x.length) :
    vadd x (smul epsilon (basis x.length i)) =
      x.set i (x.getD i 0 + epsilon) := by
  apply List.ext_getElem
  · simp [vadd, smul, basis]
  · intro j h1 h2
    have hj : j < x.length := by
      simpa [vadd, smul, basis] using h1
    rw [List.getElem_set]
    simp only [vadd, smul, basis]
    rw [List.getElem_zipWith, List.getElem_map, List.getElem_map,
      List.getElem_range]
    by_cases hji : j = i
    · subst hji
      rw [if_pos rfl, if_pos rfl, List.getD_eq_getElem x 0 hj]
      ring
    · rw [if_neg hji, if_neg (fun hh => hji hh.symm)]
      ring

/-- Subtracting `epsilon` times the `i`-th basis vector is the same as
setting coordinate `i` to `x[i] - epsilon`. -/
theorem vsub_smul_basis (x : Vec) (epsilon : ℚ) (i : ℕ) (hi : i < x.length) :
    vsub x (smul epsilon (basis x.length i)) =
      x.set i (x.getD i 0 - epsilon) := by
  apply List.ext_getElem
  · simp [vsub, smul, basis]
  · intro j h1 h2
    have hj : j < x.length := by
      simpa [vsub, smul, basis] using h1
    rw [List.getElem_set]
    simp only [vsub, smul, basis]
    rw [List.getElem_zipWith, List.getElem_map, List.getElem_map,
      List.getElem_range]
    by_cases hji : j = i
    · subst hji
      rw [if_pos rfl, if_pos rfl, List.getD_eq_getElem x 0 hj]
      ring
    · rw [if_neg hji, if_neg (fun hh => hji hh.symm)]
      ring

/-- The source's coordinate-copy-and-nudge computation agrees with the
spec's basis-vector formulation at every in-range coordinate. -/
theorem approximate_ith_eq_spec (f : Vec → Vec) (x : Vec) (epsilon : ℚ)
    (i : ℕ) (hi : i < x.length) :
    approximate_ith i f x epsilon = specApproximateIth f x epsilon i := by
  unfold approximate_ith specApproximateIth
  rw [vadd_smul_basis x epsilon i hi, vsub_smul_basis x epsilon i hi]

/-- Component `i` of `_approximate_gradient` is `_approximate_ith i`. -/
theorem approximate_gradient_getD (f : Vec → Vec) (x : Vec) (epsilon : ℚ)
    (i : ℕ) (hi : i < x.length) :
    (approximate_gradient f x epsilon).getD i 0 =
      approximate_ith i f x epsilon := by
  unfold approximate_gradient
  have hlen : i < ((List.range x.length).map fun j =>
      approximate_ith j f x epsilon).length := by
    simpa using hi
  rw [List.getD_eq_getElem _ 0 hlen, List.getElem_map, List.getElem_range]

/-- The sum of coordinatewise absolute differences of two equal-length
lists, as a `Finset.range` sum. -/
theorem sum_abs_vsub (a b : List ℚ) (h : a.length = b.length) :
    ((vsub a b).map fun t => |t|).sum =
      ∑ i ∈ Finset.range a.length, |a.getD i 0 - b.getD i 0| := by
  induction a generalizing b with
  | nil => simp [vsub]
  | cons ha ta ih =>
    cases b with
    | nil => simp at h
    | cons hb tb =>
      have hlen : ta.length = tb.length := by simpa using h
      simp only [vsub, List.zipWith, List.map, List.sum_cons,
        List.length_cons]
      rw [Finset.sum_range_succ']
      simp only [List.getD_cons_succ, List.getD_cons_zero]
      rw [← ih tb hlen]
      simp only [vsub]
      ring

/-- C8: `SteepestDescent.next` returns the objective value evaluated at the
input parameters together with `parameters - step_size * jacobian`, and
`reset()` leaves the optimizer unchanged. -/
theorem steepest_descent_next_spec (step_size : ℚ) (get_obj_jac : Vec → ℚ × Vec)
    (x : Vec) (v : ℚ) (jac : Vec) (h : get_obj_jac x = (v, jac)) :
    (SteepestDescent.mk step_size).next get_obj_jac x =
      (v, vsub x (smul step_size jac)) ∧
    (SteepestDescent.mk step_size).reset = SteepestDescent.mk step_size := by
  refine ⟨?_, rfl⟩
  simp [SteepestDescent.next, h]

/-- Witness for C8, at the spec's example: step size 1, objective 5,
jacobian `[2, -1]`, input `[0, 0]`. -/
theorem steepest_descent_next_spec_witness :
    (SteepestDescent.mk 1).next (fun _ => (5, [2, -1])) [0, 0] =
      (5, vsub [0, 0] (smul 1 [2, -1])) ∧
    (SteepestDescent.mk 1).reset = SteepestDescent.mk 1 :=
  steepest_descent_next_spec 1 (fun _ => (5, [2, -1])) [0, 0] 5 [2, -1] rfl

/-- C10: `prev_jacobian` is `None` after construction and after `reset`,
`next` never writes the optimizer state, hence every reachable state has
`prev_jacobian = None` and `next` on a reachable state performs the plain
steepest-descent update (the momentum branch is never executed). -/
theorem sdm_prev_jacobian_always_none :
    (∀ a b : ℚ,
      (SteepestDescentMomentum.make a b).prev_jacobian = Option.none) ∧
    (∀ s : SteepestDescentMomentum, s.reset.prev_jacobian = Option.none) ∧
    (∀ (s : SteepestDescentMomentum) (g : Vec → ℚ × Vec) (x : Vec),
      (s.next g x).2 = s) ∧
    (∀ s : SteepestDescentMomentum, SDMReachable s →
      s.prev_jacobian = Option.none) ∧
    (∀ (s : SteepestDescentMomentum) (g : Vec → ℚ × Vec) (x : Vec),
      SDMReachable s →
      (s.next g x).1 = ((g x).1, vsub x (smul s.step_size (g x).2))) := by
  have hreach : ∀ s : SteepestDescentMomentum, SDMReachable s →
      s.prev_jacobian = Option.none := by
    intro s hs
    induction hs with
    | make a b => rfl
    | reset _ _ => rfl
    | next g x _ ih => exact ih
  refine ⟨fun a b => rfl, fun s => rfl, fun s g x => rfl, hreach, ?_⟩
  intro s g x hs
  simp [SteepestDescentMomentum.next, hreach s hs]

/-- Witness for C10 at a concrete reachable state. -/
theorem sdm_prev_jacobian_always_none_witness :
    (SteepestDescentMomentum.make 1 (1/5)).prev_jacobian = Option.none ∧
    ((SteepestDescentMomentum.make 1 (1/5)).next (fun _ => (0, [1])) [0]).1 =
      (0, vsub [0] (smul 1 [1])) :=
  ⟨sdm_prev_jacobian_always_none.2.2.2.1 _ (SDMReachable.make 1 (1/5)),
   sdm_prev_jacobian_always_none.2.2.2.2 _ (fun _ => (0, [1])) [0]
     (SDMReachable.make 1 (1/5))⟩

/-- C1 (code evaluation at the failing input): with step size 1 and momentum
rate 1/5, against a problem of constant jacobian `[1]` and objective `0`,
the first `next` from `[0]` yields parameters `[-1]`, and the second `next`
yields `[-2]` — the plain steepest-descent result — not the `[-11/5]`
(`= [-1] - 1*[1] - (1*(1/5))*[1]`) that the documented momentum update
prescribes, because `next` never stores the previous jacobian. -/
theorem sdm_second_call_has_no_momentum :
    (((SteepestDescentMomentum.make 1 (1/5)).next
        (fun _ => (0, [1])) [0]).1.2 = [-1]) ∧
    (((((SteepestDescentMomentum.make 1 (1/5)).next
        (fun _ => (0, [1])) [0]).2).next (fun _ => (0, [1])) [-1]).1.2 = [-2]) ∧
    ¬ (((((SteepestDescentMomentum.make 1 (1/5)).next
        (fun _ => (0, [1])) [0]).2).next (fun _ => (0, [1])) [-1]).1.2 =
          [-11/5]) := by
  refine ⟨?_, ?_, ?_⟩ <;>
    norm_num [SteepestDescentMomentum.make, SteepestDescentMomentum.next,
      vsub, smul]

/-- C3 counterexample: with none of the seven input functions supplied, the
`get_obj_jac` accessor does not return Python `None`; it returns the list
`[None, None]` produced by `_bundle`. -/
theorem problem_none_pair_accessor_not_none :
    (@Problem.make ℕ Option.none Option.none Option.none Option.none
        Option.none Option.none Option.none).get_obj_jac 0 =
      some (PyVal.seq [PyVal.none, PyVal.none]) ∧
    ¬ (@Problem.make ℕ Option.none Option.none Option.none Option.none
        Option.none Option.none Option.none).get_obj_jac 0 =
      some PyVal.none := by
  have e : (@Problem.make ℕ Option.none Option.none Option.none Option.none
      Option.none Option.none Option.none).get_obj_jac 0 =
        some (PyVal.seq [PyVal.none, PyVal.none]) := rfl
  refine ⟨e, fun h => ?_⟩
  rw [e] at h
  exact PyVal.noConfusion (Option.some.inj h)

/-- C3 amended: with none of the seven input functions supplied, every
accessor returns without raising; the three single-value accessors return
Python `None`, while the composed pair accessors return the list
`[None, None]` and the triple accessor the list `[None, None, None]`. -/
theorem problem_all_unavailable (X : Type) (x : X) :
    (@Problem.make X Option.none Option.none Option.none Option.none
        Option.none Option.none Option.none).get_obj x = some PyVal.none ∧
    (@Problem.make X Option.none Option.none Option.none Option.none
        Option.none Option.none Option.none).get_jac x = some PyVal.none ∧
    (@Problem.make X Option.none Option.none Option.none Option.none
        Option.none Option.none Option.none).get_hess x = some PyVal.none ∧
    (@Problem.make X Option.none Option.none Option.none Option.none
        Option.none Option.none Option.none).get_obj_jac x =
      some (PyVal.seq [PyVal.none, PyVal.none]) ∧
    (@Problem.make X Option.none Option.none Option.none Option.none
        Option.none Option.none Option.none).get_obj_hess x =
      some (PyVal.seq [PyVal.none, PyVal.none]) ∧
    (@Problem.make X Option.none Option.none Option.none Option.none
        Option.none Option.none Option.none).get_jac_hess x =
      some (PyVal.seq [PyVal.none, PyVal.none]) ∧
    (@Problem.make X Option.none Option.none Option.none Option.none
        Option.none Option.none Option.none).get_obj_jac_hess x =
      some (PyVal.seq [PyVal.none, PyVal.none, PyVal.none]) :=
  ⟨rfl, rfl, rfl, rfl, rfl, rfl, rfl⟩

/-- C2: with `obj_jac_func` and `hess_func` supplied (and no
`obj_jac_hess_func`), `get_obj_jac_hess(x)` returns — without raising — the
output of the combined function concatenated with the resolved hess, i.e.
`(obj_jac_func(x)[0], obj_jac_func(x)[1], hess_func(x))`. -/
theorem problem_obj_jac_hess_from_obj_jac_and_hess (X : Type)
    (obj_jac_func : X → List PyVal) (hess_func : X → PyVal) (x : X)
    (v g : PyVal) (h : obj_jac_func x = [v, g]) :
    (@Problem.make X Option.none Option.none (some hess_func)
        (some obj_jac_func) Option.none Option.none
        Option.none).get_obj_jac_hess x =
      some (PyVal.seq (obj_jac_func x ++ [hess_func x])) ∧
    (@Problem.make X Option.none Option.none (some hess_func)
        (some obj_jac_func) Option.none Option.none
        Option.none).get_obj_jac_hess x =
      some (PyVal.seq [v, g, hess_func x]) := by
  have e : (@Problem.make X Option.none Option.none (some hess_func)
      (some obj_jac_func) Option.none Option.none
      Option.none).get_obj_jac_hess x =
        some (PyVal.seq (obj_jac_func x ++ [hess_func x])) := rfl
  exact ⟨e, e.trans (by rw [h]; rfl)⟩

/-- Witness for C2, with `obj_jac_func` returning `(1, 2)` and `hess_func`
returning `3` (opaque values). -/
theorem problem_obj_jac_hess_from_obj_jac_and_hess_witness :
    (@Problem.make ℕ Option.none Option.none (some fun _ => PyVal.atom 3)
        (some fun _ => [PyVal.atom 1, PyVal.atom 2]) Option.none Option.none
        Option.none).get_obj_jac_hess 0 =
      some (PyVal.seq ([PyVal.atom 1, PyVal.atom 2] ++ [PyVal.atom 3])) ∧
    (@Problem.make ℕ Option.none Option.none (some fun _ => PyVal.atom 3)
        (some fun _ => [PyVal.atom 1, PyVal.atom 2]) Option.none Option.none
        Option.none).get_obj_jac_hess 0 =
      some (PyVal.seq [PyVal.atom 1, PyVal.atom 2, PyVal.atom 3]) :=
  problem_obj_jac_hess_from_obj_jac_and_hess ℕ (fun _ => [PyVal.atom 1, PyVal.atom 2])
    (fun _ => PyVal.atom 3) 0 (PyVal.atom 1) (PyVal.atom 2) rfl

/-- C4: with only `obj_jac_hess_func` supplied, all seven accessors are
derived from it consistently: singles by indexing, pairs by index pairs
`(0,1)`, `(0,2)`, `(1,2)`, and the triple is the function itself. -/
theorem problem_from_obj_jac_hess_func (X : Type) (F : X → List PyVal) (x : X)
    (a b c : PyVal) (h : F x = [a, b, c]) :
    (@Problem.make X Option.none Option.none Option.none Option.none
        Option.none Option.none (some F)).get_obj x = some a ∧
    (@Problem.make X Option.none Option.none Option.none Option.none
        Option.none Option.none (some F)).get_jac x = some b ∧
    (@Problem.make X Option.none Option.none Option.none Option.none
        Option.none Option.none (some F)).get_hess x = some c ∧
    (@Problem.make X Option.none Option.none Option.none Option.none
        Option.none Option.none (some F)).get_obj_jac x =
      some (PyVal.seq [a, b]) ∧
    (@Problem.make X Option.none Option.none Option.none Option.none
        Option.none Option.none (some F)).get_obj_hess x =
      some (PyVal.seq [a, c]) ∧
    (@Problem.make X Option.none Option.none Option.none Option.none
        Option.none Option.none (some F)).get_jac_hess x =
      some (PyVal.seq [b, c]) ∧
    (@Problem.make X Option.none Option.none Option.none Option.none
        Option.none Option.none (some F)).get_obj_jac_hess x =
      some (PyVal.seq (F x)) ∧
    (@Problem.make X Option.none Option.none Option.none Option.none
        Option.none Option.none (some F)).get_obj_jac_hess x =
      some (PyVal.seq [a, b, c]) := by
  refine ⟨?_, ?_, ?_, ?_, ?_, ?_, rfl, ?_⟩
  · show (F x).get? 0 = some a
    rw [h]; rfl
  · show (F x).get? 1 = some b
    rw [h]; rfl
  · show (F x).get? 2 = some c
    rw [h]; rfl
  · show (([0, 1].mapM fun i => (F x).get? i).map PyVal.seq) =
      some (PyVal.seq [a, b])
    rw [h]; rfl
  · show (([0, 2].mapM fun i => (F x).get? i).map PyVal.seq) =
      some (PyVal.seq [a, c])
    rw [h]; rfl
  · show (([1, 2].mapM fun i => (F x).get? i).map PyVal.seq) =
      some (PyVal.seq [b, c])
    rw [h]; rfl
  · show some (PyVal.seq (F x)) = some (PyVal.seq [a, b, c])
    rw [h]

/-- Witness for C4, at `obj_jac_hess_func` returning `(1, 2, 3)`. -/
theorem problem_from_obj_jac_hess_func_witness :
    (@Problem.make ℕ Option.none Option.none Option.none Option.none
        Option.none Option.none
        (some fun _ => [PyVal.atom 1, PyVal.atom 2, PyVal.atom 3])).get_obj 0 =
      some (PyVal.atom 1) ∧
    (@Problem.make ℕ Option.none Option.none Option.none Option.none
        Option.none Option.none
        (some fun _ => [PyVal.atom 1, PyVal.atom 2, PyVal.atom 3])).get_jac 0 =
      some (PyVal.atom 2) ∧
    (@Problem.make ℕ Option.none Option.none Option.none Option.none
        Option.none Option.none
        (some fun _ => [PyVal.atom 1, PyVal.atom 2, PyVal.atom 3])).get_hess 0 =
      some (PyVal.atom 3) ∧
    (@Problem.make ℕ Option.none Option.none Option.none Option.none
        Option.none Option.none
        (some fun _ => [PyVal.atom 1, PyVal.atom 2, PyVal.atom 3])).get_obj_jac 0 =
      some (PyVal.seq [PyVal.atom 1, PyVal.atom 2]) ∧
    (@Problem.make ℕ Option.none Option.none Option.none Option.none
        Option.none Option.none
        (some fun _ => [PyVal.atom 1, PyVal.atom 2, PyVal.atom 3])).get_obj_hess 0 =
      some (PyVal.seq [PyVal.atom 1, PyVal.atom 3]) ∧
    (@Problem.make ℕ Option.none Option.none Option.none Option.none
        Option.none Option.none
        (some fun _ => [PyVal.atom 1, PyVal.atom 2, PyVal.atom 3])).get_jac_hess 0 =
      some (PyVal.seq [PyVal.atom 2, PyVal.atom 3]) ∧
    (@Problem.make ℕ Option.none Option.none Option.none Option.none
        Option.none Option.none
        (some fun _ => [PyVal.atom 1, PyVal.atom 2, PyVal.atom 3])).get_obj_jac_hess 0 =
      some (PyVal.seq ((fun _ => [PyVal.atom 1, PyVal.atom 2, PyVal.atom 3])
        (0 : ℕ))) ∧
    (@Problem.make ℕ Option.none Option.none Option.none Option.none
        Option.none Option.none
        (some fun _ => [PyVal.atom 1, PyVal.atom 2, PyVal.atom 3])).get_obj_jac_hess 0 =
      some (PyVal.seq [PyVal.atom 1, PyVal.atom 2, PyVal.atom 3]) :=
  problem_from_obj_jac_hess_func ℕ
    (fun _ => [PyVal.atom 1, PyVal.atom 2, PyVal.atom 3]) 0
    (PyVal.atom 1) (PyVal.atom 2) (PyVal.atom 3) rfl

/-- The dot product is commutative. -/
theorem dot_comm (a b : Vec) : dot a b = dot b a := by
  induction a generalizing b with
  | nil => cases b <;> simp [dot]
  | cons h t ih =>
    cases b with
    | nil => simp [dot]
    | cons hb tb =>
      simp only [dot, List.zipWith, List.sum_cons] at *
      rw [mul_comm, ih tb]

/-- Scalar multiplication factors out of the dot product. -/
theorem dot_smul (c : ℚ) (v w : Vec) : dot (smul c v) w = c * dot v w := by
  induction v generalizing w with
  | nil => simp [dot, smul]
  | cons h t ih =>
    cases w with
    | nil => simp [dot, smul]
    | cons hw tw =>
      simp only [dot, smul, List.map, List.zipWith, List.sum_cons] at *
      rw [ih tw]
      ring

/-- C6: with valid strictness constants, the Wolfe-conditions check returns
`True` iff both the Armijo rule `f(x+a*p) ≤ f(x) + c_1*a*(p·∇f(x))` and the
curvature condition `p·∇f(x+a*p) ≥ c_2*(p·∇f(x))` hold, where the values at
`x + a*p` come from the supplied `obj_jac` function. -/
theorem wolfe_conditions_iff (get_obj_jac : Vec → ℚ × Vec) (a : ℚ) (x : Vec)
    (obj_xk : ℚ) (jac_xk step_dir : Vec) (c_1 c_2 : ℚ)
    (h : 0 < c_1 ∧ c_1 < c_2 ∧ c_2 < 1) :
    wolfe_conditions (m := Except String) (fun y => pure (get_obj_jac y))
        a x obj_xk jac_xk step_dir c_1 c_2 = Except.ok true ↔
      ((get_obj_jac (vadd x (smul a step_dir))).1 ≤
          obj_xk + c_1 * a * dot step_dir jac_xk ∧
        dot step_dir (get_obj_jac (vadd x (smul a step_dir))).2 ≥
          c_2 * dot step_dir jac_xk) := by
  unfold wolfe_conditions
  rw [if_neg (not_not_intro h)]
  show Except.ok (armijo_rule a obj_xk jac_xk step_dir
      (get_obj_jac (vadd x (smul a step_dir))).1 c_1 &&
    curvature_condition jac_xk step_dir
      (get_obj_jac (vadd x (smul a step_dir))).2 c_2) = Except.ok true ↔ _
  rw [show (Except.ok (ε := String) (armijo_rule a obj_xk jac_xk step_dir
        (get_obj_jac (vadd x (smul a step_dir))).1 c_1 &&
      curvature_condition jac_xk step_dir
        (get_obj_jac (vadd x (smul a step_dir))).2 c_2) = Except.ok true) ↔
      (armijo_rule a obj_xk jac_xk step_dir
        (get_obj_jac (vadd x (smul a step_dir))).1 c_1 &&
      curvature_condition jac_xk step_dir
        (get_obj_jac (vadd x (smul a step_dir))).2 c_2) = true from
    ⟨fun hh => Except.ok.inj hh, fun hh => by rw [hh]⟩]
  rw [Bool.and_eq_true]
  unfold armijo_rule curvature_condition
  rw [decide_eq_true_iff, decide_eq_true_iff, dot_smul, dot_smul,
    dot_comm jac_xk step_dir,
    dot_comm (get_obj_jac (vadd x (smul a step_dir))).2 step_dir]

/-- Witness for C6: step size 1 from `x = [0]` in direction `[-1]` on the
problem whose objective is `t ↦ t²/2` (jacobian `t`), with
`c_1 = 1/4, c_2 = 1/2`. -/
theorem wolfe_conditions_iff_witness :
    wolfe_conditions (m := Except String)
        (fun y => pure ((y.getD 0 0) ^ 2 / 2, [y.getD 0 0]))
        1 [0] 0 [0] [-1] (1/4) (1/2) = Except.ok true ↔
      (((fun (y : Vec) => ((y.getD 0 0) ^ 2 / 2, [y.getD 0 0]))
          (vadd [0] (smul 1 [-1]))).1 ≤
          0 + 1/4 * 1 * dot [-1] [0] ∧
        dot [-1] (((fun (y : Vec) => ((y.getD 0 0) ^ 2 / 2, [y.getD 0 0]))
          (vadd [0] (smul 1 [-1]))).2) ≥
          1/2 * dot [-1] [0]) :=
  wolfe_conditions_iff (fun y => ((y.getD 0 0) ^ 2 / 2, [y.getD 0 0]))
    1 [0] 0 [0] [-1] (1/4) (1/2) (by norm_num)

/-- C5: with strictness constants violating `0 < c_1 < c_2 < 1` the check
raises `ValueError('0 < c_1 < c_2 < 1')` before evaluating `obj_jac_func`
(zero evaluations); with valid constants no such error is raised. -/
theorem wolfe_conditions_invalid_params (get_obj_jac : Vec → ℚ × Vec) (a : ℚ)
    (x : Vec) (obj_xk : ℚ) (jac_xk step_dir : Vec) (c_1 c_2 : ℚ) :
    (¬ (0 < c_1 ∧ c_1 < c_2 ∧ c_2 < 1) →
      (wolfe_conditions (countingObjJac get_obj_jac) a x obj_xk jac_xk
          step_dir c_1 c_2).run.run 0 =
        (Except.error "0 < c_1 < c_2 < 1", 0)) ∧
    ((0 < c_1 ∧ c_1 < c_2 ∧ c_2 < 1) →
      ∃ result : Bool,
        ((wolfe_conditions (countingObjJac get_obj_jac) a x obj_xk jac_xk
          step_dir c_1 c_2).run.run 0).1 = Except.ok result) := by
  constructor
  · intro hinv
    unfold wolfe_conditions
    rw [if_pos hinv]
    rfl
  · intro hvalid
    refine ⟨armijo_rule a obj_xk jac_xk step_dir
        (get_obj_jac (vadd x (smul a step_dir))).1 c_1 &&
      curvature_condition jac_xk step_dir
        (get_obj_jac (vadd x (smul a step_dir))).2 c_2, ?_⟩
    unfold wolfe_conditions
    rw [if_neg (not_not_intro hvalid)]
    rfl

/-- Witness for C5, at the spec's example `c_1 = 1/2, c_2 = 1/10` (invalid)
and at `c_1 = 1/4, c_2 = 1/2` (valid). -/
theorem wolfe_conditions_invalid_params_witness :
    (wolfe_conditions (countingObjJac fun _ => (0, [1])) 1 [0] 0 [1] [-1]
        (1/2) (1/10)).run.run 0 = (Except.error "0 < c_1 < c_2 < 1", 0) ∧
    ∃ result : Bool,
      ((wolfe_conditions (countingObjJac fun _ => (0, [1])) 1 [0] 0 [1] [-1]
        (1/4) (1/2)).run.run 0).1 = Except.ok result :=
  ⟨(wolfe_conditions_invalid_params (fun _ => (0, [1])) 1 [0] 0 [1] [-1]
      (1/2) (1/10)).1 (by norm_num),
   (wolfe_conditions_invalid_params (fun _ => (0, [1])) 1 [0] 0 [1] [-1]
      (1/4) (1/2)).2 (by norm_num)⟩

/-- C7: with valid strictness constants the check evaluates the supplied
`obj_jac_func` exactly once, whatever the outcome of the two
sub-conditions. -/
theorem wolfe_conditions_single_evaluation (get_obj_jac : Vec → ℚ × Vec)
    (a : ℚ) (x : Vec) (obj_xk : ℚ) (jac_xk step_dir : Vec) (c_1 c_2 : ℚ)
    (h : 0 < c_1 ∧ c_1 < c_2 ∧ c_2 < 1) :
    ((wolfe_conditions (countingObjJac get_obj_jac) a x obj_xk jac_xk
      step_dir c_1 c_2).run.run 0).2 = 1 := by
  unfold wolfe_conditions
  rw [if_neg (not_not_intro h)]
  rfl

/-- Witness for C7, at an accepting and a rejecting instance. -/
theorem wolfe_conditions_single_evaluation_witness :
    ((wolfe_conditions (countingObjJac fun _ => (0, [1])) 1 [0] 0 [1] [-1]
      (1/4) (1/2)).run.run 0).2 = 1 :=
  wolfe_conditions_single_evaluation (fun _ => (0, [1])) 1 [0] 0 [1] [-1]
    (1/4) (1/2) (by norm_num)

/-- C9: with tolerance `epsilon > 0` and a derivative of matching dimension,
`check_gradient` accepts iff the mean over all coordinates of the absolute
difference between `df(x)` and the central-difference approximation
`(f(x + epsilon*e_i) - f(x - epsilon*e_i)) / (2*epsilon)` (component `i`) is
at most `epsilon`; the `inputs is None` path uses the drawn random vector
with the default tolerance, which is `1e-6`. -/
theorem check_gradient_spec (f df : Vec → Vec) (x : Vec) (epsilon : ℚ)
    (h_eps : 0 < epsilon) (hdf : (df x).length = x.length) :
    (check_gradient f df x epsilon = true ↔
      (∑ i ∈ Finset.range x.length,
        |(df x).getD i 0 - specApproximateIth f x epsilon i|) /
          (x.length : ℚ) ≤ epsilon) ∧
    check_gradient_default f df x = check_gradient f df x default_epsilon ∧
    default_epsilon = 1 / 1000000 := by
  refine ⟨?_, rfl, rfl⟩
  unfold check_gradient
  rw [decide_eq_true_iff]
  have hag : (approximate_gradient f x epsilon).length = x.length := by
    simp [approximate_gradient]
  have hsum := sum_abs_vsub (df x) (approximate_gradient f x epsilon)
    (by rw [hdf, hag])
  have hlen : ((vsub (df x) (approximate_gradient f x epsilon)).map
      fun t => |t|).length = x.length := by
    simp [vsub, hdf, hag]
  unfold npMean
  rw [hsum, hlen, hdf]
  have hc : ∑ i ∈ Finset.range x.length,
      |(df x).getD i 0 - (approximate_gradient f x epsilon).getD i 0| =
      ∑ i ∈ Finset.range x.length,
        |(df x).getD i 0 - specApproximateIth f x epsilon i| :=
    Finset.sum_congr rfl fun i hi => by
      rw [approximate_gradient_getD f x epsilon i (Finset.mem_range.mp hi),
        approximate_ith_eq_spec f x epsilon i (Finset.mem_range.mp hi)]
  rw [hc]

/-- Witness for C9, at `f(t)=t²` coordinatewise, `df(t)=2t`, `x=[1,2]`,
`epsilon=1/100`. -/
theorem check_gradient_spec_witness :
    (check_gradient (fun y => y.map fun t => t * t)
        (fun y => y.map fun t => 2 * t) [1, 2] (1/100) = true ↔
      (∑ i ∈ Finset.range ([(1:ℚ), 2] : Vec).length,
        |((fun (y : Vec) => y.map fun t => 2 * t) [1, 2]).getD i 0 -
          specApproximateIth (fun y => y.map fun t => t * t) [1, 2]
            (1/100) i|) / (([(1:ℚ), 2] : Vec).length : ℚ) ≤ 1/100) ∧
    check_gradient_default (fun y => y.map fun t => t * t)
        (fun y => y.map fun t => 2 * t) [1, 2] =
      check_gradient (fun y => y.map fun t => t * t)
        (fun y => y.map fun t => 2 * t) [1, 2] default_epsilon ∧
    default_epsilon = 1 / 1000000 :=
  check_gradient_spec (fun y => y.map fun t => t * t)
    (fun y => y.map fun t => 2 * t) [1, 2] (1/100) (by norm_num) rfl

end Learning
